import Mathlib

/-!
Verification of the NDEF record decoder and structured tag-report builder
of the RFID-Attendance repository (src/script.js, structured-scanner variant).

Bytes are modelled as `Nat` (payloads are `Uint8Array`s, so concrete bytes
are < 256; the wellformedness hypothesis is stated where a theorem needs it).
`TextDecoder` (default options: UTF-8, non-fatal, BOM-stripping) and
`TextDecoder` with the "utf-16" label (UTF-16LE, non-fatal, BOM-stripping)
are modelled by `utf8Decode` and `utf16leDecode` following the WHATWG
Encoding Standard's replacement-mode decoders: they are total and never
throw, substituting U+FFFD for malformed input.
-/

namespace NFC

/-- The Unicode replacement character U+FFFD emitted by non-fatal decoders. -/
def replChar : Char := Char.ofNat 0xFFFD

/-! ### UTF-8 decoding (WHATWG utf-8 decoder, replacement mode) -/

/-- State of the WHATWG UTF-8 decoder between bytes: accumulated code point,
continuation bytes seen, continuation bytes needed, and the admissible
range for the next continuation byte. -/
structure Utf8State where
  codepoint : Nat
  bytesSeen : Nat
  bytesNeeded : Nat
  lower : Nat
  upper : Nat
deriving Repr, DecidableEq

/-- Initial UTF-8 decoder state. -/
def utf8Init : Utf8State := ⟨0, 0, 0, 0x80, 0xBF⟩

/-- Process one byte in the initial state: either emit a character
(ASCII or U+FFFD for a stray byte) or enter a multi-byte sequence. -/
def utf8StartByte (b : Nat) : Sum Char Utf8State :=
  if b ≤ 0x7F then Sum.inl (Char.ofNat b)
  else if 0xC2 ≤ b ∧ b ≤ 0xDF then Sum.inr ⟨b % 32, 0, 1, 0x80, 0xBF⟩
  else if 0xE0 ≤ b ∧ b ≤ 0xEF then
    Sum.inr ⟨b % 16, 0, 2, if b = 0xE0 then 0xA0 else 0x80,
             if b = 0xED then 0x9F else 0xBF⟩
  else if 0xF0 ≤ b ∧ b ≤ 0xF4 then
    Sum.inr ⟨b % 8, 0, 3, if b = 0xF0 then 0x90 else 0x80,
             if b = 0xF4 then 0x8F else 0xBF⟩
  else Sum.inl replChar

/-- Main loop of the WHATWG UTF-8 decoder in replacement mode.  On a
continuation byte outside the admissible range the decoder emits U+FFFD and
reprocesses the byte in the initial state; at end of input with an
unfinished sequence it emits one U+FFFD. -/
def utf8Loop : Utf8State → List Nat → List Char
  | s, [] => if s.bytesNeeded = 0 then [] else [replChar]
  | s, b :: rest =>
    if s.bytesNeeded = 0 then
      match utf8StartByte b with
      | Sum.inl c => c :: utf8Loop utf8Init rest
      | Sum.inr s2 => utf8Loop s2 rest
    else
      if s.lower ≤ b ∧ b ≤ s.upper then
        let cp := s.codepoint * 64 + b % 64
        let seen := s.bytesSeen + 1
        if seen = s.bytesNeeded then Char.ofNat cp :: utf8Loop utf8Init rest
        else utf8Loop ⟨cp, seen, s.bytesNeeded, 0x80, 0xBF⟩ rest
      else
        replChar ::
          (match utf8StartByte b with
           | Sum.inl c => c :: utf8Loop utf8Init rest
           | Sum.inr s2 => utf8Loop s2 rest)

/-- `TextDecoder()` (label "utf-8", non-fatal): strips a leading UTF-8 BOM
and decodes the rest in replacement mode. -/
def utf8Decode (bytes : List Nat) : String :=
  match bytes with
  | 0xEF :: 0xBB :: 0xBF :: rest => String.mk (utf8Loop utf8Init rest)
  | _ => String.mk (utf8Loop utf8Init bytes)

/-! ### UTF-16LE decoding (WHATWG utf-16le decoder, replacement mode) -/

/-- Pair up bytes little-endian into 16-bit code units; the Bool reports a
dangling final byte. -/
def utf16Units : List Nat → List Nat × Bool
  | [] => ([], false)
  | [_] => ([], true)
  | b1 :: b2 :: rest =>
    let p := utf16Units rest
    ((b1 % 256 + 256 * (b2 % 256)) :: p.1, p.2)

/-- Interpret UTF-16 code units with surrogate-pair handling in replacement
mode; `pending` holds an unmatched high surrogate, `lone` reports a dangling
trailing byte (one U+FFFD at end of input covers both, as in the WHATWG
shared utf-16 decoder). -/
def utf16Chars (lone : Bool) : Option Nat → List Nat → List Char
  | none, [] => if lone then [replChar] else []
  | some _, [] => [replChar]
  | none, u :: rest =>
    if 0xD800 ≤ u ∧ u ≤ 0xDBFF then utf16Chars lone (some u) rest
    else if 0xDC00 ≤ u ∧ u ≤ 0xDFFF then replChar :: utf16Chars lone none rest
    else Char.ofNat u :: utf16Chars lone none rest
  | some h, u :: rest =>
    if 0xDC00 ≤ u ∧ u ≤ 0xDFFF then
      Char.ofNat (0x10000 + (h - 0xD800) * 0x400 + (u - 0xDC00)) ::
        utf16Chars lone none rest
    else if 0xD800 ≤ u ∧ u ≤ 0xDBFF then replChar :: utf16Chars lone (some u) rest
    else replChar :: Char.ofNat u :: utf16Chars lone none rest

/-- `TextDecoder("utf-16")` (UTF-16LE, non-fatal): strips a leading FF FE
BOM and decodes little-endian code units in replacement mode. -/
def utf16leDecode (bytes : List Nat) : String :=
  let stripped := match bytes with
    | 0xFF :: 0xFE :: rest => rest
    | _ => bytes
  let p := utf16Units stripped
  String.mk (utf16Chars p.2 none p.1)

/-! ### JS string/number primitives used by script.js -/

/-- `Array.prototype.join(sep)` / typed-array join. -/
def jsJoin (sep : String) : List String → String
  | [] => ""
  | [s] => s
  | s :: rest => s ++ sep ++ jsJoin sep rest

/-- `n.toString(16)`: lowercase hexadecimal rendering of a natural number. -/
def natToHex (n : Nat) : String := String.mk (Nat.toDigits 16 n)

/-- `String.prototype.padStart(width, c)`. -/
def padStart (width : Nat) (c : Char) (s : String) : String :=
  String.mk (List.replicate (width - s.length) c) ++ s

/-- `b.toString(16).padStart(2, '0')`: one hex octet, lowercase. -/
def natToHex2 (b : Nat) : String := padStart 2 '0' (natToHex b)

/-- ASCII uppercasing of one character, as `String.prototype.toUpperCase`
acts on the ASCII range (the only characters these strings contain). -/
def upperChar (c : Char) : Char :=
  if 'a' ≤ c ∧ c ≤ 'z' then Char.ofNat (c.toNat - 32) else c

/-- `String.prototype.toUpperCase` restricted to ASCII content. -/
def toUpperAscii (s : String) : String := String.mk (s.data.map upperChar)

/-- `String.fromCharCode(b)` for a printable byte, `'.'` otherwise, as in
the ascii rendering of `createStructuredRecord`. -/
def asciiChar (b : Nat) : Char :=
  if 32 ≤ b ∧ b ≤ 126 then Char.ofNat b else '.'

/-- `TypedArray.prototype.slice(start, stop)` on a byte list (indices clamp). -/
def jsSlice (l : List Nat) (start stop : Nat) : List Nat :=
  (l.take stop).drop start

/-! ### Data model (script.js, structured scanner) -/

/-- A raw NDEF record as delivered by the platform reader. -/
structure RawRecord where
  recordType : String
  tnf : Nat
  mediaType : Option String
  id : Option String
  data : List Nat
deriving Repr, DecidableEq

/-- The kind-specific `parsed.metadata` object literal built by
`parseRecordDataStructured`. -/
inductive Metadata
  | empty
  | textMeta (language : String) (encoding : String)
  | urlMeta (prefixCode : Nat)
deriving Repr, DecidableEq

/-- The `parsed` object returned by `parseRecordDataStructured`. -/
structure ParsedContent where
  type : String
  content : Option String
  metadata : Metadata
  error : Option String
deriving Repr, DecidableEq

/-- The fixed 36-entry NDEF URL abbreviation table (`urlPrefixes` in
`parseRecordDataStructured`). -/
def urlPrefixes : List String :=
  ["", "http://www.", "https://www.", "http://", "https://",
   "tel:", "mailto:", "ftp://anonymous:anonymous@", "ftp://ftp.",
   "ftps://", "sftp://", "smb://", "nfs://", "ftp://", "dav://",
   "news:", "telnet://", "imap:", "rtsp://", "urn:", "pop:",
   "sip:", "sips:", "tftp:", "btspp://", "btl2cap://", "btgoep://",
   "tcpobex://", "irdaobex://", "file://", "urn:epc:id:",
   "urn:epc:tag:", "urn:epc:pat:", "urn:epc:raw:", "urn:epc:",
   "urn:nfc:"]

/-- `parseRecordDataStructured` (script.js lines 473-528).  The decoder
object is `new TextDecoder()` (UTF-8, non-fatal), used on every path; the
`catch` handlers can never fire because every operation here is total, so
`error` is always absent.  `statusByte & 0x3F` is `% 64` and
`statusByte & 0x80` tests bit 7; `urlPrefixes[prefixCode] || ''` is an
out-of-range-to-empty lookup (entry 0 is itself the empty string). -/
def parseRecordDataStructured (record : RawRecord) : ParsedContent :=
  if record.recordType = "text" then
    let statusByte := record.data.headD 0
    let languageCodeLength := statusByte % 64
    let encoding := if statusByte.testBit 7 then "UTF-16" else "UTF-8"
    let languageCode := utf8Decode (jsSlice record.data 1 (1 + languageCodeLength))
    let text := utf8Decode (record.data.drop (1 + languageCodeLength))
    ⟨record.recordType, some text, Metadata.textMeta languageCode encoding, none⟩
  else if record.recordType = "url" then
    let prefixCode := record.data.headD 0
    let pfx := (urlPrefixes.get? prefixCode).getD ""
    let url := utf8Decode (record.data.drop 1)
    ⟨record.recordType, some (pfx ++ url), Metadata.urlMeta prefixCode, none⟩
  else
    ⟨record.recordType, some (utf8Decode record.data), Metadata.empty, none⟩

/-- JS `x || null` on an optional string: the empty string is falsy. -/
def jsOrNull (x : Option String) : Option String :=
  match x with
  | some s => if s = "" then none else some s
  | none => none

/-- The per-byte hex groups `dataArray.map(b => b.toString(16).padStart(2,'0'))`
computed by `createStructuredRecord` before they are joined with spaces. -/
def hexGroups (bytes : List Nat) : List String := bytes.map natToHex2

/-- The `data` sub-object of a structured record. -/
structure RecordData where
  byte_length : Nat
  hex : Option String
  ascii : Option String
  parsed_content : Option ParsedContent
deriving Repr, DecidableEq

/-- One entry of `ndef_message.records`. -/
structure StructuredRecord where
  index : Nat
  record_type : String
  tnf : Nat
  media_type : Option String
  id : Option String
  data : RecordData
  parsing_error : Option String
deriving Repr, DecidableEq

/-- `createStructuredRecord` (script.js lines 435-471).  All operations in
its `try` block are total, so `parsing_error` is never set. -/
def createStructuredRecord (record : RawRecord) (index : Nat) : StructuredRecord :=
  let rt := if record.recordType = "" then "unknown" else record.recordType
  if record.data.length > 0 then
    ⟨index, rt, record.tnf, jsOrNull record.mediaType, jsOrNull record.id,
     ⟨record.data.length,
      some (jsJoin " " (hexGroups record.data)),
      some (String.mk (record.data.map asciiChar)),
      some (parseRecordDataStructured record)⟩,
     none⟩
  else
    ⟨index, rt, record.tnf, jsOrNull record.mediaType, jsOrNull record.id,
     ⟨record.data.length, none, none, none⟩,
     none⟩

/-! ### Tag technical inspector -/

/-- The optional platform-reported `event.tag` bag. -/
structure TagMeta where
  tech : Option (List String)
  atqa : Option Nat
  sak : Option Nat
  maxSize : Option Nat
  isWritable : Option Bool
  canMakeReadOnly : Option Bool
deriving Repr, DecidableEq

/-- `formatSerialNumber` (script.js lines 656-661): a byte array is joined
as colon-separated hex octets and uppercased; anything else is returned by
`toString()`, which for a string is the string itself. -/
def formatSerialNumber : Sum (List Nat) String → String
  | Sum.inl bytes => toUpperAscii (jsJoin ":" (bytes.map natToHex2))
  | Sum.inr s => s

/-- `determineTagType` (script.js lines 663-690); `Set.has` is list
membership. -/
def determineTagType (technologies : List String) : String :=
  if technologies.contains "MifareClassic" then "ISO 14443-3A - Mifare Classic"
  else if technologies.contains "MifareUltralight" then "ISO 14443-3A - Mifare Ultralight"
  else if technologies.contains "NfcA" && technologies.contains "NdefFormatable" then
    "ISO 14443-3A - NDEF Formatable"
  else if technologies.contains "NfcA" then "ISO 14443-3A"
  else if technologies.contains "NfcB" then "ISO 14443-3B"
  else if technologies.contains "NfcF" then "ISO 18092 - FeliCa"
  else if technologies.contains "NfcV" then "ISO 15693 - I-CODE"
  else if technologies.contains "IsoDep" then "ISO 14443-4 - ISO-DEP"
  else if technologies.contains "Ndef" then "NDEF Tag"
  else if technologies.contains "NdefFormatable" then "NDEF Formatable Tag"
  else "Unknown (" ++ jsJoin ", " technologies ++ ")"

/-- `getMifareClassicSectorInfo` (script.js lines 717-733). -/
def getMifareClassicSectorInfo (maxSize : Nat) : String :=
  let totalBlocks := maxSize / 16
  if totalBlocks ≤ 16 then
    toString totalBlocks ++ " sectors of 4 blocks (16 bytes each)"
  else if totalBlocks ≤ 40 then
    "32 sectors of 4 blocks and 8 sectors of 16 blocks (16 bytes each)"
  else
    toString totalBlocks ++ " blocks (16 bytes each)"

/-- `getMemoryInfo` (script.js lines 692-715).  `tag.tech || []` defaults
the technology set; `if (tag.maxSize)` is a truthiness test, so a present
but zero `maxSize` takes the unknown-size branch; the surrounding
`try/catch` never fires (everything is total). -/
def getMemoryInfo (tag : TagMeta) : Option String :=
  let techSet := tag.tech.getD []
  if techSet.contains "MifareClassic" then
    match tag.maxSize with
    | some m =>
      if m ≠ 0 then
        some (toString (m / 1024) ++ " kBytes: " ++ getMifareClassicSectorInfo m)
      else some "Mifare Classic (size unknown)"
    | none => some "Mifare Classic (size unknown)"
  else if techSet.contains "MifareUltralight" then
    some "Mifare Ultralight (512 bytes)"
  else
    match tag.maxSize with
    | some m =>
      if m ≠ 0 then
        some (toString (m / 1024) ++ " kBytes (" ++ toString m ++ " bytes)")
      else none
    | none => none

/-! ### Tag report builder -/

/-- `tagData.scan_info`: the wall-clock inputs of `createStructuredTagData`
(`new Date()` rendered two ways) plus the fixed version string, passed in
as a parameter since the core is otherwise pure. -/
structure ScanInfo where
  timestamp : String
  timestamp_unix : Nat
  scanner_version : String
deriving Repr, DecidableEq

/-- `tagData.tag_technical`. -/
structure TagTechnical where
  detected : Bool
  type : String
  technologies : List String
  memory_info : Option String
  serial_number : Option String
  atqa : Option String
  sak : Option String
  max_size : Option Nat
  is_writable : Option Bool
  can_make_readonly : Option Bool
deriving Repr, DecidableEq

/-- `tagData.ndef_message`. -/
structure NdefMessageData where
  has_message : Bool
  record_count : Nat
  records : List StructuredRecord
deriving Repr, DecidableEq

/-- The report object built by `createStructuredTagData` (the reflective
`raw_data` key-listing field is debugging output and is not modelled). -/
structure TagData where
  scan_info : ScanInfo
  tag_technical : TagTechnical
  ndef_message : NdefMessageData
deriving Repr, DecidableEq

/-- The `message.records` property as JS sees it: missing/null, present but
not iterable, or an honest record sequence. -/
inductive RecordsField
  | absent
  | notIterable
  | list (records : List RawRecord)
deriving Repr, DecidableEq

/-- The `event.message` object. -/
structure NDEFMessage where
  records : RecordsField
deriving Repr, DecidableEq

/-- A reading event from the platform reader. -/
structure ReadingEvent where
  message : Option NDEFMessage
  serialNumber : Option (Sum (List Nat) String)
  tag : Option TagMeta
deriving Repr, DecidableEq

/-- JS truthiness of `event.serialNumber`: arrays are always truthy, a
string is truthy when non-empty. -/
def serialTruthy : Option (Sum (List Nat) String) → Bool
  | none => false
  | some (Sum.inl _) => true
  | some (Sum.inr s) => s != ""

/-- `createStructuredTagData` (script.js lines 354-433).  The defaults are
the object literal at the top of the function; each platform field is
copied only when present, exactly as the `if` chain does. -/
def createStructuredTagData (now : ScanInfo) (event : ReadingEvent)
    (records : List RawRecord) : TagData :=
  let base : TagTechnical :=
    ⟨true, "Unknown", [], none, none, none, none, none, none, none⟩
  let t1 :=
    if serialTruthy event.serialNumber then
      { base with serial_number := event.serialNumber.map formatSerialNumber }
    else base
  let t2 :=
    match event.tag with
    | none => t1
    | some tag =>
      let a :=
        match tag.tech with
        | some tech => { t1 with technologies := tech, type := determineTagType tech }
        | none => t1
      let b :=
        match tag.atqa with
        | some n => { a with atqa := some ("0x" ++ padStart 4 '0' (natToHex n)) }
        | none => a
      let c :=
        match tag.sak with
        | some n => { b with sak := some ("0x" ++ padStart 2 '0' (natToHex n)) }
        | none => b
      let d :=
        match tag.maxSize with
        | some m => { c with max_size := some m, memory_info := getMemoryInfo tag }
        | none => c
      let e :=
        match tag.isWritable with
        | some w => { d with is_writable := some w }
        | none => d
      match tag.canMakeReadOnly with
      | some w => { e with can_make_readonly := some w }
      | none => e
  let recs :=
    if records.length > 0 then
      records.enum.map (fun p => createStructuredRecord p.2 p.1)
    else []
  ⟨now, t2, ⟨event.message.isSome, records.length, recs⟩⟩

/-- `handleNFCReading` (script.js lines 286-352): the presence checks throw
case-specific errors that the catch block maps to the user-facing messages
shown here; a validated event is turned into the structured report, which
becomes `lastTagData`. -/
def handleNFCReading (now : ScanInfo) (event : Option ReadingEvent) :
    Except String TagData :=
  match event with
  | none =>
    Except.error
      "Error processing NFC tag data: No data received from NFC reader. Please try scanning again."
  | some ev =>
    match ev.message with
    | none =>
      Except.error
        "Error processing NFC tag data: This NFC tag appears to be empty or unformatted."
    | some msg =>
      match msg.records with
      | RecordsField.absent =>
        Except.error
          "Error processing NFC tag data: No readable data found on this NFC tag."
      | RecordsField.notIterable =>
        Except.error
          "Error processing NFC tag data: Invalid data format on this NFC tag."
      | RecordsField.list records =>
        Except.ok (createStructuredTagData now ev records)

/-! ### Spec-side definitions used for refinement claims -/

/-- One classification rule of spec §4.3: a decidable condition on the
technology set and the resulting label. -/
def TagRule : Type := (List String → Bool) × String

/-- Spec §4.3 rules 1-10 in order (rule 11 is the default of
`specTagTypeLabel`).  Modelled from the spec's ordered rule list. -/
def tagTypeRules : List TagRule :=
  [(fun ts => ts.contains "MifareClassic", "ISO 14443-3A - Mifare Classic"),
   (fun ts => ts.contains "MifareUltralight", "ISO 14443-3A - Mifare Ultralight"),
   (fun ts => ts.contains "NfcA" && ts.contains "NdefFormatable",
    "ISO 14443-3A - NDEF Formatable"),
   (fun ts => ts.contains "NfcA", "ISO 14443-3A"),
   (fun ts => ts.contains "NfcB", "ISO 14443-3B"),
   (fun ts => ts.contains "NfcF", "ISO 18092 - FeliCa"),
   (fun ts => ts.contains "NfcV", "ISO 15693 - I-CODE"),
   (fun ts => ts.contains "IsoDep", "ISO 14443-4 - ISO-DEP"),
   (fun ts => ts.contains "Ndef", "NDEF Tag"),
   (fun ts => ts.contains "NdefFormatable", "NDEF Formatable Tag")]

/-- First-match-wins evaluation of an ordered rule list. -/
def firstMatchLabel : List TagRule → List String → Option String
  | [], _ => none
  | r :: rs, ts => if r.1 ts then some r.2 else firstMatchLabel rs ts

/-- Spec §4.3 classification: ordered rules, first match wins, otherwise
rule 11's comma-joined unknown label. -/
def specTagTypeLabel (ts : List String) : String :=
  (firstMatchLabel tagTypeRules ts).getD ("Unknown (" ++ jsJoin ", " ts ++ ")")

/-- An uppercase hexadecimal digit. -/
def isUpperHexChar (c : Char) : Bool :=
  ('0' ≤ c && c ≤ '9') || ('A' ≤ c && c ≤ 'F')

/-- A lowercase hexadecimal digit. -/
def isLowerHexChar (c : Char) : Bool :=
  ('0' ≤ c && c ≤ '9') || ('a' ≤ c && c ≤ 'f')

/-- Split a character list at every occurrence of `sep` (the semantics of
`String.splitOn` for a one-character separator). -/
def splitCharAux (sep : Char) : List Char → List Char → List (List Char)
  | [], acc => [acc.reverse]
  | c :: rest, acc =>
    if c = sep then acc.reverse :: splitCharAux sep rest []
    else splitCharAux sep rest (c :: acc)

/-- Split a string at every occurrence of the character `sep`. -/
def splitChar (sep : Char) (s : String) : List String :=
  (splitCharAux sep s.data []).map String.mk

/-- The "colon-separated uppercase hex octets" format of spec §3: splitting
on ':' yields groups of exactly two uppercase hex digits. -/
def isColonSeparatedUpperHex (s : String) : Bool :=
  (splitChar ':' s).all (fun g => g.length == 2 && g.data.all isUpperHexChar)

/-! ### Theorems -/

/-- Decoding no bytes yields the empty string. -/
theorem utf8Decode_nil : utf8Decode [] = "" := by decide

set_option maxHeartbeats 1000000 in
/-- C6: for every technology set, `determineTagType` computes exactly the
ordered first-match classification of spec §4.3 — MifareClassic first, then
MifareUltralight, then the NfcA + NdefFormatable pair before plain NfcA,
then NfcB, NfcF, NfcV, IsoDep, Ndef, NdefFormatable, and otherwise the
"Unknown (<comma-joined technology list>)" label. -/
theorem C6_tag_type_classification (ts : List String) :
    determineTagType ts = specTagTypeLabel ts := by
  simp only [determineTagType, specTagTypeLabel, tagTypeRules, firstMatchLabel]
  split_ifs <;> rfl

/-- C7: for tag metadata whose technologies include "MifareClassic" and
whose `maxSize` is known (and nonzero, since the source tests JS
truthiness), `memoryInfo` is "<floor(maxSize/1024)> kBytes: " followed by
the sector description selected by block count n = floor(maxSize/16):
"<n> sectors of 4 blocks (16 bytes each)" for n ≤ 16, the fixed 4K string
for 16 < n ≤ 40, and "<n> blocks (16 bytes each)" otherwise. -/
theorem C7_mifare_memory_info (tag : TagMeta) (m : Nat)
    (htech : (tag.tech.getD []).contains "MifareClassic" = true)
    (hmax : tag.maxSize = some m) (hm : 0 < m) :
    getMemoryInfo tag = some (toString (m / 1024) ++ " kBytes: " ++
      (if m / 16 ≤ 16 then toString (m / 16) ++ " sectors of 4 blocks (16 bytes each)"
       else if m / 16 ≤ 40 then
         "32 sectors of 4 blocks and 8 sectors of 16 blocks (16 bytes each)"
       else toString (m / 16) ++ " blocks (16 bytes each)")) := by
  have hm' : m ≠ 0 := Nat.pos_iff_ne_zero.mp hm
  unfold getMemoryInfo
  rw [hmax, if_pos htech]
  simp only [hm', ne_eq, not_false_eq_true, if_true, if_pos]
  rfl

/-- Witness for C7 at Scenario D's input: one MifareClassic tag with
maxSize 1024 (64 blocks, the > 40 branch). -/
theorem C7_mifare_memory_info_witness :
    getMemoryInfo ⟨some ["MifareClassic"], none, none, some 1024, none, none⟩ =
      some "1 kBytes: 64 blocks (16 bytes each)" := by
  have h := C7_mifare_memory_info
    ⟨some ["MifareClassic"], none, none, some 1024, none, none⟩ 1024
    (by decide) rfl (by decide)
  simpa using h

/-- C10: a text record whose status byte declares a language-code length L
with 1 + L exceeding the payload length still decodes without error: the
language slice is clamped to the bytes after the status byte, the text
content is the empty string, and no error is recorded. -/
theorem C10_text_truncated_language (status tnf : Nat) (rest : List Nat)
    (mt i : Option String) (h : rest.length < status % 64) :
    parseRecordDataStructured ⟨"text", tnf, mt, i, status :: rest⟩ =
      ⟨"text", some "", Metadata.textMeta (utf8Decode rest)
        (if status.testBit 7 then "UTF-16" else "UTF-8"), none⟩ := by
  have h1 : (status :: rest).drop (1 + status % 64) = [] := by
    apply List.drop_eq_nil_of_le
    simp only [List.length_cons]
    omega
  have h2 : jsSlice (status :: rest) 1 (1 + status % 64) = rest := by
    unfold jsSlice
    rw [List.take_of_length_le (by simp only [List.length_cons]; omega)]
    rfl
  simp only [parseRecordDataStructured, List.headD_cons, h1, h2, utf8Decode_nil]
  simp

/-- C1 counterexample: a text record with status byte 0x80 (bit 7 set,
language length 0) and remaining bytes [0x34, 0x12].  The claim predicts
the content is the UTF-16 decoding of the remaining bytes ("ሴ"), but the
decoder always decodes with the default UTF-8 `TextDecoder`, yielding
"4\x12". -/
theorem C1_text_utf16_counterexample :
    Nat.testBit (List.headD ([0x80, 0x34, 0x12] : List Nat) 0) 7 = true ∧
    (parseRecordDataStructured ⟨"text", 1, none, none, [0x80, 0x34, 0x12]⟩).content ≠
      some (utf16leDecode (List.drop 1 [0x80, 0x34, 0x12])) := by
  decide

/-- C1 (amended): for a text-record payload [statusByte, languageBytes...,
textBytes...] whose language field has the declared length L = bits 0-5 of
the status byte, the language metadata is the UTF-8 decoding of the
language bytes, the content is the UTF-8 decoding of the text bytes
regardless of bit 7 (the source never switches the decoder to UTF-16), and
the encoding metadata string reflects bit 7. -/
theorem C1_text_decoding (status tnf : Nat) (lang text : List Nat)
    (mt i : Option String) (h : lang.length = status % 64) :
    parseRecordDataStructured ⟨"text", tnf, mt, i, status :: (lang ++ text)⟩ =
      ⟨"text", some (utf8Decode text),
       Metadata.textMeta (utf8Decode lang)
         (if status.testBit 7 then "UTF-16" else "UTF-8"), none⟩ := by
  have h1 : (status :: (lang ++ text)).drop (1 + status % 64) = text := by
    rw [← h, Nat.add_comm, List.drop_succ_cons]
    exact List.drop_left lang text
  have h2 : jsSlice (status :: (lang ++ text)) 1 (1 + status % 64) = lang := by
    unfold jsSlice
    rw [← h, Nat.add_comm, List.take_succ_cons, List.drop_one, List.tail_cons]
    exact List.take_left lang text
  simp only [parseRecordDataStructured, List.headD_cons, h1, h2]
  simp

/-- Witness for C1 at Scenario A's input: status 0x02, language "en",
text "Hi". -/
theorem C1_text_decoding_witness :
    parseRecordDataStructured ⟨"text", 1, none, none,
        [0x02, 0x65, 0x6E, 0x48, 0x69]⟩ =
      ⟨"text", some "Hi", Metadata.textMeta "en" "UTF-8", none⟩ := by
  have h := C1_text_decoding 0x02 1 [0x65, 0x6E] [0x48, 0x69] none none (by decide)
  simp only [List.cons_append, List.nil_append] at h
  rw [h]
  decide

/-- C3: evaluation of the decoder at the failing input — a "mime" record
with mediaType "application/json" and payload '\x7b"a":1\x7d'.  The claim
(and the repository's own README and its unreachable `parseMimeRecord`
helper) predicts pretty-printed JSON, but `parseRecordDataStructured` has
no mime case, so the record takes the generic default branch and the
content is the raw decoded text, not the 2-space-indented rendering. -/
theorem C3_mime_json_not_pretty_printed :
    (parseRecordDataStructured ⟨"mime", 2, some "application/json", none,
        [0x7B, 0x22, 0x61, 0x22, 0x3A, 0x31, 0x7D]⟩).content =
      some "\x7b\"a\":1\x7d" ∧
    ("\x7b\"a\":1\x7d" : String) ≠ "\x7b\n  \"a\": 1\n\x7d" := by
  decide

/-- C4: the record decoder is a total function (it never raises), and for
every record with a non-empty payload the resulting ParsedContent has a
present content and no error: the decoder's `TextDecoder` runs in
replacement mode and never fails, so the catch handlers are unreachable. -/
theorem C4_decoder_never_fails (record : RawRecord) (_h : record.data ≠ []) :
    (parseRecordDataStructured record).content ≠ none ∧
    (parseRecordDataStructured record).error = none := by
  unfold parseRecordDataStructured
  split_ifs <;> simp

/-- Witness for C4 at an unrecognized record type with payload [0x68]. -/
theorem C4_decoder_never_fails_witness :
    (([0x68] : List Nat) ≠ []) ∧
    ((parseRecordDataStructured ⟨"mystery", 5, none, none, [0x68]⟩).content ≠ none ∧
     (parseRecordDataStructured ⟨"mystery", 5, none, none, [0x68]⟩).error = none) :=
  ⟨by decide, C4_decoder_never_fails ⟨"mystery", 5, none, none, [0x68]⟩ (by decide)⟩

/-- The URL abbreviation table has exactly 36 entries. -/
theorem urlPrefixes_length : urlPrefixes.length = 36 := rfl

/-- Evaluation of the decoder on a url record, by unfolding. -/
theorem parse_url_eq (tnf : Nat) (mt i : Option String) (d : List Nat) :
    parseRecordDataStructured ⟨"url", tnf, mt, i, d⟩ =
      ⟨"url", some (((urlPrefixes.get? (d.headD 0)).getD "") ++ utf8Decode (d.drop 1)),
       Metadata.urlMeta (d.headD 0), none⟩ := rfl

/-- C2: decoding a url record [code, urlBytes...] yields the 36-entry
prefix-table entry at the code (when the code is in range) concatenated
with the UTF-8 decoding of the remaining bytes; out-of-range codes resolve
to the empty prefix; the metadata records the prefix code. -/
theorem C2_url_decoding (code tnf : Nat) (rest : List Nat) (mt i : Option String) :
    urlPrefixes.length = 36 ∧
    (∀ h : code < urlPrefixes.length,
      (parseRecordDataStructured ⟨"url", tnf, mt, i, code :: rest⟩).content =
        some (urlPrefixes.get ⟨code, h⟩ ++ utf8Decode rest)) ∧
    (36 ≤ code →
      (parseRecordDataStructured ⟨"url", tnf, mt, i, code :: rest⟩).content =
        some (utf8Decode rest)) ∧
    (parseRecordDataStructured ⟨"url", tnf, mt, i, code :: rest⟩).metadata =
      Metadata.urlMeta code := by
  refine ⟨rfl, ?_, ?_, ?_⟩
  · intro h
    rw [parse_url_eq]
    simp only [List.headD_cons, List.drop_one, List.tail_cons,
      List.get?_eq_get h, Option.getD_some]
  · intro h
    rw [parse_url_eq]
    have hn : urlPrefixes.get? code = none :=
      List.get?_eq_none.mpr (by rw [urlPrefixes_length]; exact h)
    simp only [List.headD_cons, List.drop_one, List.tail_cons, hn,
      Option.getD_none]
    show some (String.mk ([] ++ (utf8Decode rest).data)) = some (utf8Decode rest)
    rfl
  · rw [parse_url_eq]
    simp only [List.headD_cons]

/-- Witness for C2 at Scenario B's input: prefix code 1 ("http://www.")
followed by the ASCII bytes of "google.com". -/
theorem C2_url_decoding_witness :
    (parseRecordDataStructured ⟨"url", 1, none, none,
        [0x01, 0x67, 0x6F, 0x6F, 0x67, 0x6C, 0x65, 0x2E, 0x63, 0x6F, 0x6D]⟩).content =
      some "http://www.google.com" := by
  have h := (C2_url_decoding 0x01 1
    [0x67, 0x6F, 0x6F, 0x67, 0x6C, 0x65, 0x2E, 0x63, 0x6F, 0x6D] none none).2.1
    (by decide)
  rw [h]
  decide

/-- C5: a reading event whose message holds zero records produces a report
with `recordCount` 0, an empty record list and `hasMessage` true, while a
missing event, a missing message, and a missing record collection each
produce a distinct input-absence error and no report. -/
theorem C5_report_validation (now : ScanInfo) (sn : Option (Sum (List Nat) String))
    (tag : Option TagMeta) :
    ((handleNFCReading now (some ⟨some ⟨RecordsField.list []⟩, sn, tag⟩)).map
        (fun r => (r.ndef_message.has_message, r.ndef_message.record_count,
                   r.ndef_message.records))
      = Except.ok (true, 0, [])) ∧
    handleNFCReading now none =
      Except.error "Error processing NFC tag data: No data received from NFC reader. Please try scanning again." ∧
    handleNFCReading now (some ⟨none, sn, tag⟩) =
      Except.error "Error processing NFC tag data: This NFC tag appears to be empty or unformatted." ∧
    handleNFCReading now (some ⟨some ⟨RecordsField.absent⟩, sn, tag⟩) =
      Except.error "Error processing NFC tag data: No readable data found on this NFC tag." ∧
    ("Error processing NFC tag data: This NFC tag appears to be empty or unformatted." ≠
      "Error processing NFC tag data: No readable data found on this NFC tag.") := by
  refine ⟨rfl, rfl, rfl, rfl, by decide⟩

set_option maxRecDepth 4000 in
/-- Every byte below 256 renders as exactly two lowercase hex digits. -/
theorem natToHex2_two_lower_hex : ∀ b : Nat, b < 256 →
    (natToHex2 b).length = 2 ∧ ∀ c ∈ (natToHex2 b).data, isLowerHexChar c = true := by
  decide

/-- C8: for every record with non-empty payload, the structured record's
hex rendering is the space-join of exactly `dataLength` two-lowercase-hex-
digit groups, its ascii rendering has exactly `dataLength` characters, and
`parsed_content` is computed (independently) alongside them. -/
theorem C8_hex_ascii_invariant (record : RawRecord) (index : Nat)
    (hb : ∀ b ∈ record.data, b < 256) (hne : record.data ≠ []) :
    (createStructuredRecord record index).data.hex =
      some (jsJoin " " (hexGroups record.data)) ∧
    (hexGroups record.data).length = record.data.length ∧
    (∀ g ∈ hexGroups record.data, g.length = 2 ∧ ∀ c ∈ g.data, isLowerHexChar c = true) ∧
    (createStructuredRecord record index).data.ascii =
      some (String.mk (record.data.map asciiChar)) ∧
    (String.mk (record.data.map asciiChar)).length = record.data.length ∧
    (createStructuredRecord record index).data.parsed_content =
      some (parseRecordDataStructured record) := by
  have hlen : record.data.length > 0 := List.length_pos.mpr hne
  refine ⟨?_, ?_, ?_, ?_, ?_, ?_⟩
  · simp [createStructuredRecord, hlen]
  · simp [hexGroups]
  · intro g hg
    simp only [hexGroups, List.mem_map] at hg
    obtain ⟨b, hbm, rfl⟩ := hg
    exact natToHex2_two_lower_hex b (hb b hbm)
  · simp [createStructuredRecord, hlen]
  · show (record.data.map asciiChar).length = record.data.length
    simp
  · simp [createStructuredRecord, hlen]

/-- Witness for C8 at a two-byte payload [0x00, 0xFF] (both non-printable,
one needing a leading zero in hex). -/
theorem C8_hex_ascii_invariant_witness :
    (createStructuredRecord ⟨"text", 1, none, none, [0x00, 0xFF]⟩ 0).data.hex =
      some "00 ff" ∧
    (createStructuredRecord ⟨"text", 1, none, none, [0x00, 0xFF]⟩ 0).data.ascii =
      some ".." := by
  have h := C8_hex_ascii_invariant ⟨"text", 1, none, none, [0x00, 0xFF]⟩ 0
    (by decide) (by decide)
  refine ⟨?_, ?_⟩
  · rw [h.1]; decide
  · rw [h.2.2.2.1]; decide

/-- ASCII uppercasing distributes over string concatenation. -/
theorem toUpperAscii_append (a b : String) :
    toUpperAscii (a ++ b) = toUpperAscii a ++ toUpperAscii b := by
  show String.mk ((a.data ++ b.data).map upperChar) =
    String.mk (a.data.map upperChar ++ b.data.map upperChar)
  rw [List.map_append]

/-- ASCII uppercasing distributes over a join whose separator is fixed by
uppercasing. -/
theorem toUpperAscii_jsJoin (sep : String) (hs : toUpperAscii sep = sep)
    (l : List String) :
    toUpperAscii (jsJoin sep l) = jsJoin sep (l.map toUpperAscii) := by
  induction l with
  | nil => rfl
  | cons s rest ih =>
    cases rest with
    | nil => rfl
    | cons t ts =>
      simp only [jsJoin, List.map_cons, toUpperAscii_append, hs] at ih ⊢
      rw [ih]

set_option maxRecDepth 4000 in
/-- Every byte below 256 uppercases to exactly two uppercase hex digits. -/
theorem upperHexOctet : ∀ b : Nat, b < 256 →
    (toUpperAscii (natToHex2 b)).length = 2 ∧
    ∀ c ∈ (toUpperAscii (natToHex2 b)).data, isUpperHexChar c = true := by
  decide

/-- C9 counterexample: the platform may deliver the serial number as a
string; `formatSerialNumber` then returns it unchanged via `toString()`,
so a lowercase serial string is not re-rendered as uppercase hex octets,
contradicting the claim's "regardless of whether the platform delivered
the serial number as a byte sequence or as a string". -/
theorem C9_string_serial_counterexample :
    formatSerialNumber (Sum.inr "04:a3:b2") = "04:a3:b2" ∧
    isColonSeparatedUpperHex "04:a3:b2" = false := by
  decide

/-- C9 (amended): a serial number delivered as a byte sequence is rendered
as colon-separated uppercase hex octets (each group two uppercase hex
digits); a serial number delivered as a string is passed through
unchanged. -/
theorem C9_serial_number_formatting (bytes : List Nat)
    (hb : ∀ b ∈ bytes, b < 256) :
    (formatSerialNumber (Sum.inl bytes) =
      jsJoin ":" (bytes.map (fun b => toUpperAscii (natToHex2 b)))) ∧
    (∀ g ∈ bytes.map (fun b => toUpperAscii (natToHex2 b)),
      g.length = 2 ∧ ∀ c ∈ g.data, isUpperHexChar c = true) ∧
    (∀ s, formatSerialNumber (Sum.inr s) = s) := by
  refine ⟨?_, ?_, fun s => rfl⟩
  · show toUpperAscii (jsJoin ":" (bytes.map natToHex2)) = _
    rw [toUpperAscii_jsJoin ":" rfl, List.map_map]
    rfl
  · intro g hg
    simp only [List.mem_map] at hg
    obtain ⟨b, hbm, rfl⟩ := hg
    exact upperHexOctet b (hb b hbm)

/-- Witness for C9 at the byte sequence [0x04, 0xA3, 0xB2]. -/
theorem C9_serial_number_formatting_witness :
    formatSerialNumber (Sum.inl [0x04, 0xA3, 0xB2]) = "04:A3:B2" := by
  have h := (C9_serial_number_formatting [0x04, 0xA3, 0xB2] (by decide)).1
  rw [h]
  decide

/-- Witness for C10: payload [0x05, 0x65] declares L = 5 but only one byte
follows the status byte. -/
theorem C10_text_truncated_language_witness :
    parseRecordDataStructured ⟨"text", 1, none, none, [0x05, 0x65]⟩ =
      ⟨"text", some "", Metadata.textMeta "e" "UTF-8", none⟩ := by
  have h := C10_text_truncated_language 0x05 1 [0x65] none none (by decide)
  simpa using h

end NFC
